import Mathlib

/-!
Verification of the VA-API H.264 decoder session controller
(`sys/va/gstvah264dec.c`) against its natural-language specification.

The C code is shallowly embedded: the hardware picture descriptor
(`VAPictureH264`), the decoded-picture model (`GstH264Picture` restricted
to the fields this file reads), and the decoder callbacks are Lean
functions; machine `guint` arithmetic is `Nat` with explicit reduction
modulo 2^32 where the C code can wrap; external collaborators (the VA
driver, the buffer pool, downstream negotiation) are abstracted as
explicit function or boolean parameters.
-/

/- ### libva constants (va.h) -/

def VA_INVALID_ID : Nat := 0xffffffff

def VA_PICTURE_H264_INVALID : Nat := 0x00000001

def VA_PICTURE_H264_TOP_FIELD : Nat := 0x00000002

def VA_PICTURE_H264_BOTTOM_FIELD : Nat := 0x00000004

def VA_PICTURE_H264_SHORT_TERM_REFERENCE : Nat := 0x00000008

def VA_PICTURE_H264_LONG_TERM_REFERENCE : Nat := 0x00000010

def VA_RT_FORMAT_YUV420 : Nat := 0x00000001

def VA_RT_FORMAT_YUV422 : Nat := 0x00000002

def VA_RT_FORMAT_YUV444 : Nat := 0x00000004

def VA_RT_FORMAT_YUV420_10 : Nat := 0x00000100

def VA_RT_FORMAT_YUV422_10 : Nat := 0x00000200

def VA_RT_FORMAT_YUV444_10 : Nat := 0x00000400

/- ### GStreamer constants -/

def GST_FLOW_OK : Int := 0

def GST_FLOW_ERROR : Int := -5

def GST_H264_PROFILE_BASELINE : Nat := 66

def GST_H264_PROFILE_MAIN : Nat := 77

def GST_H264_PROFILE_EXTENDED : Nat := 88

def GST_H264_PROFILE_HIGH : Nat := 100

def GST_H264_PROFILE_MULTIVIEW_HIGH : Nat := 118

def GST_H264_PROFILE_STEREO_HIGH : Nat := 128

/-- `guint` modulus: C unsigned 32-bit arithmetic wraps modulo this. -/
def M32 : Nat := 4294967296

/- ### Data model -/

/-- `GstH264PictureReference`: the DPB reference-marking status of a
decoded picture. -/
inductive Reference where
  | refNone
  | shortTerm
  | longTerm
  deriving DecidableEq, Repr

/-- `GstH264PictureField`: field disposition of a decoded picture. -/
inductive PictureField where
  | frame
  | topField
  | bottomField
  deriving DecidableEq, Repr

/-- Order counts of the paired other field (`picture->other_field`),
the only fields `_fill_vaapi_pic` reads through that pointer. -/
structure OtherField where
  top_field_order_cnt : Int
  bottom_field_order_cnt : Int
  deriving DecidableEq, Repr

/-- `GstVaDecodePicture`: the per-picture accelerator state attached as
user data — the VA surface id and the output `GstBuffer` it is bound to
(buffers are identified by a `Nat`). -/
structure VaDecodePicture where
  gstbuffer : Nat
  surface : Nat
  deriving DecidableEq, Repr

/-- `GstH264Picture`, restricted to the fields the decoder callbacks in
`gstvah264dec.c` read.  `vaPic` models the attached
`GstVaDecodePicture` user data (`gst_h264_picture_get_user_data`). -/
structure Picture where
  ref : Reference
  long_term_frame_idx : Nat
  frame_num : Nat
  field : PictureField
  top_field_order_cnt : Int
  bottom_field_order_cnt : Int
  other_field : Option OtherField
  nal_ref_idc : Nat
  buffer_flags : Nat
  vaPic : Option VaDecodePicture
  deriving DecidableEq, Repr

/-- `VAPictureH264`: the fixed-shape hardware reference-picture
descriptor. -/
structure VAPictureH264 where
  picture_id : Nat
  frame_idx : Nat
  flags : Nat
  TopFieldOrderCnt : Int
  BottomFieldOrderCnt : Int
  deriving DecidableEq, Repr

/-- `GST_H264_PICTURE_IS_FRAME`. -/
def pictureIsFrame (p : Picture) : Bool :=
  match p.field with
  | .frame => true
  | _ => false

/- ### Picture Descriptor Builder -/

/-- `_init_vaapi_pic`: the fully-invalid filler descriptor. -/
def initVaapiPic : VAPictureH264 where
  picture_id := VA_INVALID_ID
  frame_idx := 0
  flags := VA_PICTURE_H264_INVALID
  TopFieldOrderCnt := 0
  BottomFieldOrderCnt := 0

/-- `_fill_vaapi_pic`: build the hardware descriptor for one decoded
picture.  A picture without attached accelerator user data degenerates
to the invalid filler.  `mergeOtherField` controls whether the paired
opposite-parity field order count is merged in. -/
def fillVaapiPic (picture : Picture) (mergeOtherField : Bool) : VAPictureH264 :=
  match picture.vaPic with
  | none => initVaapiPic
  | some vaPic =>
    let pictureId := vaPic.surface
    let flagsAndIdx : Nat × Nat :=
      if picture.ref = Reference.longTerm then
        (VA_PICTURE_H264_LONG_TERM_REFERENCE, picture.long_term_frame_idx)
      else
        ((if picture.ref = Reference.shortTerm then
            VA_PICTURE_H264_SHORT_TERM_REFERENCE else 0), picture.frame_num)
    match picture.field with
    | .frame =>
      { picture_id := pictureId
        frame_idx := flagsAndIdx.2
        flags := flagsAndIdx.1
        TopFieldOrderCnt := picture.top_field_order_cnt
        BottomFieldOrderCnt := picture.bottom_field_order_cnt }
    | .topField =>
      match mergeOtherField, picture.other_field with
      | true, some other =>
        { picture_id := pictureId
          frame_idx := flagsAndIdx.2
          flags := flagsAndIdx.1
          TopFieldOrderCnt := picture.top_field_order_cnt
          BottomFieldOrderCnt := other.bottom_field_order_cnt }
      | _, _ =>
        { picture_id := pictureId
          frame_idx := flagsAndIdx.2
          flags := flagsAndIdx.1 ||| VA_PICTURE_H264_TOP_FIELD
          TopFieldOrderCnt := picture.top_field_order_cnt
          BottomFieldOrderCnt := 0 }
    | .bottomField =>
      match mergeOtherField, picture.other_field with
      | true, some other =>
        { picture_id := pictureId
          frame_idx := flagsAndIdx.2
          flags := flagsAndIdx.1
          TopFieldOrderCnt := other.top_field_order_cnt
          BottomFieldOrderCnt := picture.bottom_field_order_cnt }
      | _, _ =>
        { picture_id := pictureId
          frame_idx := flagsAndIdx.2
          flags := flagsAndIdx.1 ||| VA_PICTURE_H264_BOTTOM_FIELD
          TopFieldOrderCnt := 0
          BottomFieldOrderCnt := picture.bottom_field_order_cnt }

/- ### Slice data bit offset -/

/-- `_get_slice_data_bit_offset`: `guint` expression
`8 * nal_header_bytes + header->header_size - epb_count * 8`, every
operation wrapping modulo 2^32 as in C.  Inputs are `guint` values. -/
def getSliceDataBitOffset (headerSize nEpb nalHeaderBytes : Nat) : Nat :=
  (((8 * nalHeaderBytes) % M32 + headerSize) % M32 + M32 - (nEpb * 8) % M32) % M32

theorem getSliceDataBitOffset_eq_sub (headerSize nEpb nalHeaderBytes : Nat)
    (hsum : 8 * nalHeaderBytes + headerSize < M32)
    (hle : 8 * nEpb ≤ 8 * nalHeaderBytes + headerSize) :
    getSliceDataBitOffset headerSize nEpb nalHeaderBytes =
      8 * nalHeaderBytes + headerSize - 8 * nEpb := by
  unfold getSliceDataBitOffset
  have h1 : (8 * nalHeaderBytes) % M32 = 8 * nalHeaderBytes :=
    Nat.mod_eq_of_lt (lt_of_le_of_lt (Nat.le_add_right _ _) hsum)
  have h2 : (8 * nalHeaderBytes + headerSize) % M32 = 8 * nalHeaderBytes + headerSize :=
    Nat.mod_eq_of_lt hsum
  have h3 : nEpb * 8 = 8 * nEpb := Nat.mul_comm _ _
  have h4 : (nEpb * 8) % M32 = 8 * nEpb := by
    rw [h3]; exact Nat.mod_eq_of_lt (lt_of_le_of_lt (le_trans hle (Nat.le_refl _)) hsum)
  rw [h1, h2, h4]
  unfold M32 at hsum ⊢
  omega

/- ### Reference List Filler -/

/-- `_fill_ref_pic_list`: convert an ordered reference list (entries may
be null holes) into the fixed 32-entry hardware array; list entries are
converted in order, and every slot past the list length is the invalid
filler. -/
def fillRefPicList (reflist : List (Option Picture)) (currentPicture : Picture) :
    List VAPictureH264 :=
  reflist.map (fun entry =>
    match entry with
    | some picture => fillVaapiPic picture (pictureIsFrame currentPicture)
    | none => initVaapiPic)
  ++ List.replicate (32 - reflist.length) initVaapiPic

/- ### start_picture reference frames -/

/-- One of the two capped fill loops of `gst_va_h264_dec_start_picture`:
convert DPB pictures in order while the running slot index stays below
16. -/
def fillRefFrameLoop (pics : List Picture) (refFrameIdx : Nat) : List VAPictureH264 :=
  match pics with
  | [] => []
  | p :: rest =>
    if refFrameIdx < 16 then
      fillVaapiPic p true :: fillRefFrameLoop rest (refFrameIdx + 1)
    else []

/-- The `ReferenceFrames` block of `gst_va_h264_dec_start_picture`:
short-term DPB references first (in DPB order), then long-term ones,
capped at 16 slots, remaining slots invalid. -/
def referenceFrames (shortRefs longRefs : List Picture) : List VAPictureH264 :=
  let afterShort := fillRefFrameLoop shortRefs 0
  let afterLong := fillRefFrameLoop longRefs afterShort.length
  let filled := afterShort ++ afterLong
  filled ++ List.replicate (16 - filled.length) initVaapiPic

/- ### SPS / PPS / slice header model -/

/-- `GstH264SPS`, restricted to the fields `gstvah264dec.c` reads. -/
structure SPS where
  profile_idc : Nat
  constraint_set0_flag : Bool
  constraint_set1_flag : Bool
  constraint_set2_flag : Bool
  constraint_set3_flag : Bool
  chroma_format_idc : Nat
  chroma_array_type : Nat
  bit_depth_luma_minus8 : Nat
  frame_mbs_only_flag : Bool
  frame_cropping_flag : Bool
  crop_rect_x : Int
  crop_rect_y : Int
  crop_rect_width : Int
  crop_rect_height : Int
  width : Int
  height : Int
  /-- `some numViewsMinus1` when `extension_type == GST_H264_NAL_EXTENSION_MVC`. -/
  mvcNumViewsMinus1 : Option Nat
  deriving DecidableEq, Repr

/-- `GstH264PPS`, restricted to the fields read here; `sequence` is the
owning SPS. -/
structure PPS where
  weighted_pred_flag : Bool
  weighted_bipred_idc : Nat
  sequence : SPS
  deriving DecidableEq, Repr

/-- `GstH264PredWeightTable`: explicit weight tables, modelled as total
index functions over the C arrays. -/
structure PredWeightTable where
  luma_log2_weight_denom : Nat
  chroma_log2_weight_denom : Nat
  luma_weight_l0 : Nat → Int
  luma_offset_l0 : Nat → Int
  chroma_weight_l0 : Nat → Nat → Int
  chroma_offset_l0 : Nat → Nat → Int
  luma_weight_l1 : Nat → Int
  luma_offset_l1 : Nat → Int
  chroma_weight_l1 : Nat → Nat → Int
  chroma_offset_l1 : Nat → Nat → Int

/-- `GstH264SliceHdr`, restricted to the fields read here. -/
structure SliceHdr where
  type : Nat
  pps : PPS
  first_mb_in_slice : Nat
  direct_spatial_mv_pred_flag : Bool
  cabac_init_idc : Nat
  slice_qp_delta : Int
  disable_deblocking_filter_idc : Nat
  slice_alpha_c0_offset_div2 : Int
  slice_beta_offset_div2 : Int
  num_ref_idx_l0_active_minus1 : Nat
  num_ref_idx_l1_active_minus1 : Nat
  header_size : Nat
  n_emulation_prevention_bytes : Nat
  pred_weight_table : PredWeightTable

/-- `GstH264NalUnit`, restricted to the fields read here. -/
structure NalUnit where
  size : Nat
  offset : Nat
  header_bytes : Nat
  deriving DecidableEq, Repr

/-- `GstH264Slice`. -/
structure Slice where
  header : SliceHdr
  nalu : NalUnit

/-- `GST_H264_IS_P_SLICE`: slice type modulo 5 equals 0. -/
def isPSlice (h : SliceHdr) : Bool := h.type % 5 = 0

/-- `GST_H264_IS_B_SLICE`: slice type modulo 5 equals 1. -/
def isBSlice (h : SliceHdr) : Bool := h.type % 5 = 1

/-- `GST_H264_IS_SP_SLICE`: slice type modulo 5 equals 3. -/
def isSPSlice (h : SliceHdr) : Bool := h.type % 5 = 3

/-- `VASliceParameterBufferH264`, with the weight tables as total index
functions. -/
structure SliceParam where
  slice_data_size : Nat
  slice_data_offset : Nat
  slice_data_bit_offset : Nat
  first_mb_in_slice : Nat
  slice_type : Nat
  direct_spatial_mv_pred_flag : Bool
  cabac_init_idc : Nat
  slice_qp_delta : Int
  disable_deblocking_filter_idc : Nat
  slice_alpha_c0_offset_div2 : Int
  slice_beta_offset_div2 : Int
  num_ref_idx_l0_active_minus1 : Nat
  num_ref_idx_l1_active_minus1 : Nat
  RefPicList0 : List VAPictureH264
  RefPicList1 : List VAPictureH264
  luma_log2_weight_denom : Nat
  chroma_log2_weight_denom : Nat
  luma_weight_l0_flag : Nat
  luma_weight_l0 : Nat → Int
  luma_offset_l0 : Nat → Int
  chroma_weight_l0_flag : Nat
  chroma_weight_l0 : Nat → Nat → Int
  chroma_offset_l0 : Nat → Nat → Int
  luma_weight_l1_flag : Nat
  luma_weight_l1 : Nat → Int
  luma_offset_l1 : Nat → Int
  chroma_weight_l1_flag : Nat
  chroma_weight_l1 : Nat → Nat → Int
  chroma_offset_l1 : Nat → Nat → Int

/-- Overwrite entries `0 .. n` (inclusive) of a 1-D table, modelling the
C loop `for (i = 0; i <= n; i++) old[i] = new[i]`. -/
def copyUpTo (n : Nat) (src old : Nat → Int) : Nat → Int :=
  fun i => if i ≤ n then src i else old i

/-- Overwrite entries `(i, j)` with `i ≤ n`, `j < 2` of a 2-D table,
modelling the nested C loops over references and chroma components. -/
def copyUpTo2 (n : Nat) (src old : Nat → Nat → Int) : Nat → Nat → Int :=
  fun i j => if i ≤ n ∧ j < 2 then src i j else old i j

/- ### Weighted-Prediction Table Filler -/

/-- `_fill_pred_weight_table`: number of active weight tables. -/
def numWeightTables (header : SliceHdr) : Nat :=
  if header.pps.weighted_pred_flag ∧ (isPSlice header ∨ isSPSlice header) then 1
  else if header.pps.weighted_bipred_idc = 1 ∧ isBSlice header then 2
  else 0

/-- `_fill_pred_weight_table`: copy the explicit (and inferred) weight
tables into the slice parameter block; a no-op when no weight table is
active. -/
def fillPredWeightTable (header : SliceHdr) (sp : SliceParam) : SliceParam :=
  let pps := header.pps
  let sps := pps.sequence
  if numWeightTables header = 0 then sp
  else
    let sp1 := { sp with
      luma_log2_weight_denom := header.pred_weight_table.luma_log2_weight_denom
      chroma_log2_weight_denom := header.pred_weight_table.chroma_log2_weight_denom
      luma_weight_l0_flag := 1
      luma_weight_l0 := copyUpTo sp.num_ref_idx_l0_active_minus1
        header.pred_weight_table.luma_weight_l0 sp.luma_weight_l0
      luma_offset_l0 := copyUpTo sp.num_ref_idx_l0_active_minus1
        header.pred_weight_table.luma_offset_l0 sp.luma_offset_l0
      chroma_weight_l0_flag := if sps.chroma_array_type ≠ 0 then 1 else 0 }
    let sp2 :=
      if sp1.chroma_weight_l0_flag ≠ 0 then
        { sp1 with
          chroma_weight_l0 := copyUpTo2 sp1.num_ref_idx_l0_active_minus1
            header.pred_weight_table.chroma_weight_l0 sp1.chroma_weight_l0
          chroma_offset_l0 := copyUpTo2 sp1.num_ref_idx_l0_active_minus1
            header.pred_weight_table.chroma_offset_l0 sp1.chroma_offset_l0 }
      else sp1
    if numWeightTables header = 1 then sp2
    else
      let sp3 := { sp2 with
        luma_weight_l1_flag := 1
        luma_weight_l1 := copyUpTo sp2.num_ref_idx_l1_active_minus1
          header.pred_weight_table.luma_weight_l1 sp2.luma_weight_l1
        luma_offset_l1 := copyUpTo sp2.num_ref_idx_l1_active_minus1
          header.pred_weight_table.luma_offset_l1 sp2.luma_offset_l1
        chroma_weight_l1_flag := if sps.chroma_array_type ≠ 0 then 1 else 0 }
      if sp3.chroma_weight_l1_flag ≠ 0 then
        { sp3 with
          chroma_weight_l1 := copyUpTo2 sp3.num_ref_idx_l1_active_minus1
            header.pred_weight_table.chroma_weight_l1 sp3.chroma_weight_l1
          chroma_offset_l1 := copyUpTo2 sp3.num_ref_idx_l1_active_minus1
            header.pred_weight_table.chroma_offset_l1 sp3.chroma_offset_l1 }
      else sp3

/- ### Slice Parameter Builder (decode_slice) -/

/-- The slice parameter block built by `gst_va_h264_dec_decode_slice`:
the designated-initializer fields, then both reference lists, then the
weighted-prediction tables.  Fields the compound literal leaves
zero-initialized are zero. -/
def buildSliceParam (slice : Slice) (refPicList0 refPicList1 : List (Option Picture))
    (picture : Picture) : SliceParam :=
  let header := slice.header
  let nalu := slice.nalu
  let sp : SliceParam := {
    slice_data_size := nalu.size
    slice_data_offset := 0
    slice_data_bit_offset :=
      getSliceDataBitOffset header.header_size header.n_emulation_prevention_bytes
        nalu.header_bytes
    first_mb_in_slice := header.first_mb_in_slice
    slice_type := header.type % 5
    direct_spatial_mv_pred_flag := header.direct_spatial_mv_pred_flag
    cabac_init_idc := header.cabac_init_idc
    slice_qp_delta := header.slice_qp_delta
    disable_deblocking_filter_idc := header.disable_deblocking_filter_idc
    slice_alpha_c0_offset_div2 := header.slice_alpha_c0_offset_div2
    slice_beta_offset_div2 := header.slice_beta_offset_div2
    num_ref_idx_l0_active_minus1 := header.num_ref_idx_l0_active_minus1
    num_ref_idx_l1_active_minus1 := header.num_ref_idx_l1_active_minus1
    RefPicList0 := fillRefPicList refPicList0 picture
    RefPicList1 := fillRefPicList refPicList1 picture
    luma_log2_weight_denom := 0
    chroma_log2_weight_denom := 0
    luma_weight_l0_flag := 0
    luma_weight_l0 := fun _ => 0
    luma_offset_l0 := fun _ => 0
    chroma_weight_l0_flag := 0
    chroma_weight_l0 := fun _ _ => 0
    chroma_offset_l0 := fun _ _ => 0
    luma_weight_l1_flag := 0
    luma_weight_l1 := fun _ => 0
    luma_offset_l1 := fun _ => 0
    chroma_weight_l1_flag := 0
    chroma_weight_l1 := fun _ _ => 0
    chroma_offset_l1 := fun _ _ => 0 }
  fillPredWeightTable header sp

/- ### new_picture / output_picture -/

/-- `gst_va_h264_dec_new_picture`.  The buffer pool is external:
`allocRet` is the `GstFlowReturn` of
`gst_video_decoder_allocate_output_frame` and `allocatedPic` the
`GstVaDecodePicture` that `gst_va_decode_picture_new` would create on
the allocated output buffer.  Returns the callback's boolean result,
the new `self->last_ret`, and the picture (with user data attached on
success). -/
def newPicture (allocRet : Int) (allocatedPic : VaDecodePicture)
    (picture : Picture) : Bool × Int × Picture :=
  if allocRet ≠ GST_FLOW_OK then
    (false, allocRet, picture)
  else
    (true, allocRet, { picture with vaPic := some allocatedPic })

/-- Observable outcome of `gst_va_h264_dec_output_picture`. -/
structure OutputResult where
  /-- the frame was dropped (`gst_video_decoder_drop_frame`) -/
  dropped : Bool
  /-- the surface was copied to a linear output buffer -/
  copied : Bool
  /-- buffer flags propagated onto the output buffer -/
  appliedFlags : Nat
  /-- the `GstFlowReturn` the callback returns -/
  flowRet : Int
  deriving DecidableEq, Repr

/-- `gst_va_h264_dec_output_picture`.  `lastRet` is `self->last_ret`,
`copyFrames` is `base->copy_frames`, and `finishRet` the result
`gst_video_decoder_finish_frame` would return. -/
def outputPicture (lastRet : Int) (copyFrames : Bool) (picture : Picture)
    (finishRet : Int) : OutputResult :=
  if lastRet ≠ GST_FLOW_OK then
    { dropped := true, copied := false, appliedFlags := 0, flowRet := lastRet }
  else
    { dropped := false
      copied := copyFrames
      appliedFlags := if picture.buffer_flags ≠ 0 then picture.buffer_flags else 0
      flowRet := finishRet }

/- ### new_field_picture -/

/-- `gst_va_decode_picture_new base->decoder buffer`: a fresh
`GstVaDecodePicture` bound to `buffer`; the surface is the one the VA
pool stored in the buffer's memory, modelled by the decoder's
buffer-to-surface map `surfaceOfBuffer`. -/
def vaDecodePictureNew (surfaceOfBuffer : Nat → Nat) (buffer : Nat) : VaDecodePicture :=
  { gstbuffer := buffer, surface := surfaceOfBuffer buffer }

/-- `gst_va_h264_dec_new_field_picture`: fails if the first field has no
attached decode picture; otherwise attaches to the second field a new
decode picture created on the first field's `gstbuffer`. -/
def newFieldPicture (surfaceOfBuffer : Nat → Nat) (firstField secondField : Picture) :
    Bool × Picture :=
  match firstField.vaPic with
  | none => (false, secondField)
  | some firstPic =>
    (true, { secondField with
      vaPic := some (vaDecodePictureNew surfaceOfBuffer firstPic.gstbuffer) })

/- ### Sequence / profile negotiation -/

/-- `VAProfile`, restricted to the values `gstvah264dec.c` can produce. -/
inductive VAProfile where
  | profileNone
  | h264Main
  | h264High
  | h264MultiviewHigh
  | h264StereoHigh
  | h264ConstrainedBaseline
  deriving DecidableEq, Repr

/-- The `profile_map` table: only Main, High, Multiview-High and
Stereo-High map directly (the other rows are commented out in the
source). -/
def profileMap : List (Nat × VAProfile) :=
  [(GST_H264_PROFILE_MAIN, VAProfile.h264Main),
   (GST_H264_PROFILE_HIGH, VAProfile.h264High),
   (GST_H264_PROFILE_MULTIVIEW_HIGH, VAProfile.h264MultiviewHigh),
   (GST_H264_PROFILE_STEREO_HIGH, VAProfile.h264StereoHigh)]

/-- `_get_num_views`. -/
def getNumViews (sps : SPS) : Nat :=
  1 + (match sps.mvcNumViewsMinus1 with
       | some numViewsMinus1 => numViewsMinus1
       | none => 0)

/-- The ordered candidate array `_get_profile` builds: the first
matching `profile_map` row, then the `switch` fallbacks. -/
def profileCandidates (sps : SPS) (maxDpbSize : Int) : List VAProfile :=
  (match profileMap.find? (fun entry => entry.1 = sps.profile_idc) with
   | some entry => [entry.2]
   | none => []) ++
  (if sps.profile_idc = GST_H264_PROFILE_BASELINE then
    (if sps.constraint_set0_flag ∨ sps.constraint_set1_flag ∨ sps.constraint_set2_flag
     then [VAProfile.h264ConstrainedBaseline, VAProfile.h264Main]
     else [])
   else if sps.profile_idc = GST_H264_PROFILE_EXTENDED then
    (if sps.constraint_set1_flag then [VAProfile.h264Main] else [])
   else if sps.profile_idc = GST_H264_PROFILE_MULTIVIEW_HIGH then
    (if getNumViews sps = 2 then [VAProfile.h264StereoHigh] else []) ++
    (if maxDpbSize ≤ 16 then [VAProfile.h264MultiviewHigh] else [])
   else [])

/-- `_get_profile`: the first candidate the accelerator reports as
supported (`gst_va_decoder_has_profile`, abstracted as `hasProfile`),
or `VAProfileNone` when none is. -/
def getProfile (hasProfile : VAProfile → Bool) (sps : SPS) (maxDpbSize : Int) :
    VAProfile :=
  match (profileCandidates sps maxDpbSize).find? hasProfile with
  | some profile => profile
  | none => VAProfile.profileNone

/-- `_get_rtformat`: map (luma bit depth, chroma format idc) to a VA
rate format; 0 means unsupported. -/
def getRtformat (bitDepthLuma chromaFormatIdc : Nat) : Nat :=
  if bitDepthLuma = 10 then
    if chromaFormatIdc = 3 then VA_RT_FORMAT_YUV444_10
    else if chromaFormatIdc = 2 then VA_RT_FORMAT_YUV422_10
    else VA_RT_FORMAT_YUV420_10
  else if bitDepthLuma = 8 then
    if chromaFormatIdc = 3 then VA_RT_FORMAT_YUV444
    else if chromaFormatIdc = 2 then VA_RT_FORMAT_YUV422
    else VA_RT_FORMAT_YUV420
  else 0

/-- `GstVideoAlignment` padding. -/
structure Valign where
  padding_left : Int
  padding_right : Int
  padding_top : Int
  padding_bottom : Int
  deriving DecidableEq, Repr

/-- The session state `gst_va_h264_dec_new_sequence` reads and writes:
the `GstVaH264Dec` fields and the `GstVaBaseDec` fields it touches. -/
structure DecState where
  dpb_size : Int
  interlaced : Bool
  /-- `base->width` (display width) -/
  width : Int
  /-- `base->height` (display height) -/
  height : Int
  coded_width : Int
  coded_height : Int
  profile : VAProfile
  rt_format : Nat
  need_valign : Bool
  valign : Valign
  min_buffers : Int
  need_negotiation : Bool
  deriving DecidableEq, Repr

/-- `gst_va_h264_dec_new_sequence`.  External collaborators are
abstracted: `hasProfile` is the accelerator profile query,
`configIsEqual` is `gst_va_decoder_config_is_equal` against the
currently open VA configuration, `negotiateOk` the result of
`gst_video_decoder_negotiate`.  Returns `none` when the callback
returns FALSE, otherwise the updated session state. -/
def newSequence (hasProfile : VAProfile → Bool)
    (configIsEqual : VAProfile → Nat → Int → Int → Bool) (negotiateOk : Bool)
    (st : DecState) (sps : SPS) (maxDpbSize : Int) : Option DecState :=
  let st := if st.dpb_size < maxDpbSize then { st with dpb_size := maxDpbSize } else st
  let cropped : Int × Int × Int × Int × Int × Int :=
    if sps.frame_cropping_flag then
      (sps.crop_rect_width, sps.crop_rect_height,
       sps.crop_rect_x, sps.width - sps.crop_rect_x - sps.crop_rect_width,
       sps.crop_rect_y, sps.height - sps.crop_rect_y - sps.crop_rect_height)
    else
      (sps.width, sps.height, 0, 0, 0, 0)
  let displayWidth := cropped.1
  let displayHeight := cropped.2.1
  let paddingLeft := cropped.2.2.1
  let paddingRight := cropped.2.2.2.1
  let paddingTop := cropped.2.2.2.2.1
  let paddingBottom := cropped.2.2.2.2.2
  let profile := getProfile hasProfile sps maxDpbSize
  if profile = VAProfile.profileNone then none
  else
    let rtFormat := getRtformat (sps.bit_depth_luma_minus8 + 8) sps.chroma_format_idc
    if rtFormat = 0 then none
    else
      let formatChanged := ¬ configIsEqual profile rtFormat sps.width sps.height
      let st := if formatChanged then
          { st with
            profile := profile
            rt_format := rtFormat
            coded_width := sps.width
            coded_height := sps.height }
        else st
      let negotiationNeeded := formatChanged
      let resolutionChanged := st.width ≠ displayWidth ∨ st.height ≠ displayHeight
      let st := if resolutionChanged then
          { st with width := displayWidth, height := displayHeight }
        else st
      let negotiationNeeded := negotiationNeeded ∨ resolutionChanged
      let interlaced := ¬ sps.frame_mbs_only_flag
      let interlacedChanged := st.interlaced ≠ interlaced
      let st := if interlacedChanged then { st with interlaced := interlaced } else st
      let negotiationNeeded := negotiationNeeded ∨ interlacedChanged
      let needValign := st.width < st.coded_width ∨ st.height < st.coded_height
      let st := { st with need_valign := needValign }
      let newValign : Valign :=
        { padding_left := paddingLeft, padding_right := paddingRight,
          padding_top := paddingTop, padding_bottom := paddingBottom }
      let cropChanged := needValign ∧ st.valign ≠ newValign
      let st := if needValign then { st with valign := newValign } else st
      let negotiationNeeded := negotiationNeeded ∨ cropChanged
      let st := { st with min_buffers := st.dpb_size + 4 }
      if negotiationNeeded then
        let st := { st with need_negotiation := true }
        if ¬ negotiateOk then none else some st
      else some st

/- ### Spec-worded profile selection (for refinement comparison)

`specProfileCandidatesClaim` transcribes the candidate list exactly as
the claim words it ("for Baseline with any constraint-set flag set");
`specProfileCandidates` transcribes the amended wording (only
`constraint_set0/1/2` enable the Baseline fallback).  Both are compared
against `profileCandidates`, which is translated from the C source. -/

/-- The claim's direct mapping: only Main, High, Multiview-High and
Stereo-High map directly. -/
def specDirectMapping (profileIdc : Nat) : List VAProfile :=
  if profileIdc = GST_H264_PROFILE_MAIN then [VAProfile.h264Main]
  else if profileIdc = GST_H264_PROFILE_HIGH then [VAProfile.h264High]
  else if profileIdc = GST_H264_PROFILE_MULTIVIEW_HIGH then [VAProfile.h264MultiviewHigh]
  else if profileIdc = GST_H264_PROFILE_STEREO_HIGH then [VAProfile.h264StereoHigh]
  else []

/-- Candidate list following the claim's words: Baseline falls back to
Constrained-Baseline and Main whenever **any** constraint-set flag of
the SPS is set (the SPS carries flags 0 to 3). -/
def specProfileCandidatesClaim (sps : SPS) (maxDpbSize : Int) : List VAProfile :=
  specDirectMapping sps.profile_idc ++
  (if sps.profile_idc = GST_H264_PROFILE_BASELINE ∧
      (sps.constraint_set0_flag ∨ sps.constraint_set1_flag ∨
       sps.constraint_set2_flag ∨ sps.constraint_set3_flag)
   then [VAProfile.h264ConstrainedBaseline, VAProfile.h264Main] else []) ++
  (if sps.profile_idc = GST_H264_PROFILE_EXTENDED ∧ sps.constraint_set1_flag
   then [VAProfile.h264Main] else []) ++
  (if sps.profile_idc = GST_H264_PROFILE_MULTIVIEW_HIGH ∧ getNumViews sps = 2
   then [VAProfile.h264StereoHigh] else []) ++
  (if sps.profile_idc = GST_H264_PROFILE_MULTIVIEW_HIGH ∧ maxDpbSize ≤ 16
   then [VAProfile.h264MultiviewHigh] else [])

/-- Profile selection following the claim's words: first supported
candidate of `specProfileCandidatesClaim`, failure when none is. -/
def specGetProfileClaim (hasProfile : VAProfile → Bool) (sps : SPS)
    (maxDpbSize : Int) : VAProfile :=
  match (specProfileCandidatesClaim sps maxDpbSize).find? hasProfile with
  | some profile => profile
  | none => VAProfile.profileNone

/-- Candidate list following the amended wording: the Baseline fallback
requires one of `constraint_set0/1/2_flag`. -/
def specProfileCandidates (sps : SPS) (maxDpbSize : Int) : List VAProfile :=
  specDirectMapping sps.profile_idc ++
  (if sps.profile_idc = GST_H264_PROFILE_BASELINE ∧
      (sps.constraint_set0_flag ∨ sps.constraint_set1_flag ∨ sps.constraint_set2_flag)
   then [VAProfile.h264ConstrainedBaseline, VAProfile.h264Main] else []) ++
  (if sps.profile_idc = GST_H264_PROFILE_EXTENDED ∧ sps.constraint_set1_flag
   then [VAProfile.h264Main] else []) ++
  (if sps.profile_idc = GST_H264_PROFILE_MULTIVIEW_HIGH ∧ getNumViews sps = 2
   then [VAProfile.h264StereoHigh] else []) ++
  (if sps.profile_idc = GST_H264_PROFILE_MULTIVIEW_HIGH ∧ maxDpbSize ≤ 16
   then [VAProfile.h264MultiviewHigh] else [])

/- ### Concrete fixtures (used by witnesses and counterexamples) -/

/-- A baseline SPS fixture: every flag clear, 4:2:0, 8-bit, progressive,
64x48, no cropping, no MVC extension. -/
def spsBase : SPS where
  profile_idc := GST_H264_PROFILE_MAIN
  constraint_set0_flag := false
  constraint_set1_flag := false
  constraint_set2_flag := false
  constraint_set3_flag := false
  chroma_format_idc := 1
  chroma_array_type := 1
  bit_depth_luma_minus8 := 0
  frame_mbs_only_flag := true
  frame_cropping_flag := false
  crop_rect_x := 0
  crop_rect_y := 0
  crop_rect_width := 0
  crop_rect_height := 0
  width := 64
  height := 48
  mvcNumViewsMinus1 := none

/-- Baseline-profile SPS with only `constraint_set3_flag` set. -/
def spsBaselineCs3 : SPS :=
  { spsBase with
    profile_idc := GST_H264_PROFILE_BASELINE
    constraint_set3_flag := true }

/-- Baseline-profile SPS with `constraint_set1_flag` set. -/
def spsBaselineCs1 : SPS :=
  { spsBase with
    profile_idc := GST_H264_PROFILE_BASELINE
    constraint_set1_flag := true }

/-- Monochrome SPS: 8-bit luma, `chroma_format_idc = 0`. -/
def spsMono : SPS :=
  { spsBase with chroma_format_idc := 0, chroma_array_type := 0 }

/-- An accelerator that supports only Constrained-Baseline. -/
def hasOnlyConstrainedBaseline : VAProfile → Bool :=
  fun profile =>
    match profile with
    | VAProfile.h264ConstrainedBaseline => true
    | _ => false

/-- A session-state fixture already matching `spsBase`. -/
def st0 : DecState where
  dpb_size := 2
  interlaced := false
  width := 64
  height := 48
  coded_width := 64
  coded_height := 48
  profile := VAProfile.h264Main
  rt_format := VA_RT_FORMAT_YUV420
  need_valign := false
  valign := { padding_left := 0, padding_right := 0, padding_top := 0, padding_bottom := 0 }
  min_buffers := 6
  need_negotiation := false

/-- A picture fixture: unreferenced frame with no attached decode
picture. -/
def pic0 : Picture where
  ref := Reference.refNone
  long_term_frame_idx := 0
  frame_num := 0
  field := PictureField.frame
  top_field_order_cnt := 0
  bottom_field_order_cnt := 0
  other_field := none
  nal_ref_idc := 1
  buffer_flags := 0
  vaPic := none

/-- A decode-picture fixture on buffer 7 with surface 3. -/
def vaPic0 : VaDecodePicture where
  gstbuffer := 7
  surface := 3

/-- A zeroed pred-weight-table fixture. -/
def pwt0 : PredWeightTable where
  luma_log2_weight_denom := 0
  chroma_log2_weight_denom := 0
  luma_weight_l0 := fun _ => 0
  luma_offset_l0 := fun _ => 0
  chroma_weight_l0 := fun _ _ => 0
  chroma_offset_l0 := fun _ _ => 0
  luma_weight_l1 := fun _ => 0
  luma_offset_l1 := fun _ => 0
  chroma_weight_l1 := fun _ _ => 0
  chroma_offset_l1 := fun _ _ => 0

/-- An I-slice header fixture whose PPS has no weighted prediction. -/
def hdrISlice : SliceHdr where
  type := 2
  pps :=
    { weighted_pred_flag := false
      weighted_bipred_idc := 0
      sequence := spsBase }
  first_mb_in_slice := 0
  direct_spatial_mv_pred_flag := false
  cabac_init_idc := 0
  slice_qp_delta := 0
  disable_deblocking_filter_idc := 0
  slice_alpha_c0_offset_div2 := 0
  slice_beta_offset_div2 := 0
  num_ref_idx_l0_active_minus1 := 0
  num_ref_idx_l1_active_minus1 := 0
  header_size := 40
  n_emulation_prevention_bytes := 1
  pred_weight_table := pwt0

/-- A slice fixture wrapping `hdrISlice` in a one-header-byte NAL. -/
def slice0 : Slice where
  header := hdrISlice
  nalu := { size := 100, offset := 0, header_bytes := 1 }

/- ### Helper lemmas -/

theorem fillPredWeightTable_slice_data_bit_offset (header : SliceHdr) (sp : SliceParam) :
    (fillPredWeightTable header sp).slice_data_bit_offset = sp.slice_data_bit_offset := by
  simp only [fillPredWeightTable]
  split_ifs <;> rfl

/- ### Claim theorems -/

/-- Claim C10: a non-null picture with no attached accelerator
decode-picture user data is converted by the descriptor builder to
exactly the fully-invalid filler record, independently of every other
field of the picture and of the merge flag. -/
theorem C10_surfaceless_picture_is_filler (p q : Picture) (m mq : Bool)
    (hp : p.vaPic = none) (hq : q.vaPic = none) :
    fillVaapiPic p m = initVaapiPic ∧
    (fillVaapiPic p m).picture_id = VA_INVALID_ID ∧
    (fillVaapiPic p m).flags = VA_PICTURE_H264_INVALID ∧
    (fillVaapiPic p m).TopFieldOrderCnt = 0 ∧
    (fillVaapiPic p m).BottomFieldOrderCnt = 0 ∧
    fillVaapiPic p m = fillVaapiPic q mq := by
  have hpf : fillVaapiPic p m = initVaapiPic := by
    unfold fillVaapiPic; rw [hp]
  have hqf : fillVaapiPic q mq = initVaapiPic := by
    unfold fillVaapiPic; rw [hq]
  refine ⟨hpf, ?_, ?_, ?_, ?_, hpf.trans hqf.symm⟩ <;> rw [hpf] <;> rfl

/-- A second surface-less picture fixture differing from `pic0` in the
reference marking, frame number and field fields. -/
def picNoSurfAlt : Picture :=
  { pic0 with
    ref := Reference.longTerm
    frame_num := 9
    field := PictureField.topField }

/-- Witness for C10 at two concrete surface-less pictures that differ
in every other field. -/
theorem C10_witness :
    pic0.vaPic = none ∧ picNoSurfAlt.vaPic = none ∧
    fillVaapiPic pic0 true = initVaapiPic ∧
    fillVaapiPic pic0 true = fillVaapiPic picNoSurfAlt false := by
  have h := C10_surfaceless_picture_is_filler pic0 picNoSurfAlt true false rfl rfl
  exact ⟨rfl, rfl, h.1, h.2.2.2.2.2⟩

/-- Claim C4: in the hardware descriptor of a picture with an attached
decode picture, a long-term-marked reference carries the long-term flag
and `frame_idx = long_term_frame_idx`; a short-term-marked reference
carries the short-term flag and `frame_idx = frame_num`. -/
theorem C4_descriptor_reference_marking (p : Picture) (vp : VaDecodePicture) (m : Bool)
    (hv : p.vaPic = some vp) :
    (p.ref = Reference.longTerm →
      (fillVaapiPic p m).flags &&& VA_PICTURE_H264_LONG_TERM_REFERENCE ≠ 0 ∧
      (fillVaapiPic p m).frame_idx = p.long_term_frame_idx) ∧
    (p.ref = Reference.shortTerm →
      (fillVaapiPic p m).flags &&& VA_PICTURE_H264_SHORT_TERM_REFERENCE ≠ 0 ∧
      (fillVaapiPic p m).frame_idx = p.frame_num) := by
  constructor
  · intro href
    unfold fillVaapiPic
    rw [hv, href]
    cases p.field <;> cases m <;> cases p.other_field <;>
      simp [VA_PICTURE_H264_LONG_TERM_REFERENCE, VA_PICTURE_H264_TOP_FIELD,
        VA_PICTURE_H264_BOTTOM_FIELD]
  · intro href
    unfold fillVaapiPic
    rw [hv, href]
    cases p.field <;> cases m <;> cases p.other_field <;>
      simp [VA_PICTURE_H264_SHORT_TERM_REFERENCE, VA_PICTURE_H264_TOP_FIELD,
        VA_PICTURE_H264_BOTTOM_FIELD]

/-- A long-term reference frame fixture with an attached decode
picture and `long_term_frame_idx = 5`. -/
def picLongTerm5 : Picture :=
  { pic0 with
    ref := Reference.longTerm
    long_term_frame_idx := 5
    vaPic := some vaPic0 }

/-- Witness for C4 at a concrete long-term reference frame. -/
theorem C4_witness :
    picLongTerm5.vaPic = some vaPic0 ∧
    picLongTerm5.ref = Reference.longTerm ∧
    (fillVaapiPic picLongTerm5 true).flags &&& VA_PICTURE_H264_LONG_TERM_REFERENCE ≠ 0 ∧
    (fillVaapiPic picLongTerm5 true).frame_idx = 5 := by
  have h := (C4_descriptor_reference_marking picLongTerm5 vaPic0 true rfl).1 rfl
  exact ⟨rfl, rfl, h.1, h.2⟩

/-- Claim C6: the slice-data bit offset supplied to the hardware in the
slice parameter block equals
`8*nal_header_bytes + header_size - 8*emulation_prevention_byte_count`
(stated under the in-range side conditions of `guint` arithmetic). -/
theorem C6_slice_data_bit_offset (slice : Slice)
    (refPicList0 refPicList1 : List (Option Picture)) (picture : Picture)
    (hsum : 8 * slice.nalu.header_bytes + slice.header.header_size < M32)
    (hle : 8 * slice.header.n_emulation_prevention_bytes ≤
      8 * slice.nalu.header_bytes + slice.header.header_size) :
    (buildSliceParam slice refPicList0 refPicList1 picture).slice_data_bit_offset =
      8 * slice.nalu.header_bytes + slice.header.header_size -
        8 * slice.header.n_emulation_prevention_bytes := by
  unfold buildSliceParam
  rw [fillPredWeightTable_slice_data_bit_offset]
  exact getSliceDataBitOffset_eq_sub _ _ _ hsum hle

/-- Witness for C6: nal_header_bytes=1, header_size=40 bits, one
emulation-prevention byte gives offset 40. -/
theorem C6_witness :
    8 * slice0.nalu.header_bytes + slice0.header.header_size < M32 ∧
    8 * slice0.header.n_emulation_prevention_bytes ≤
      8 * slice0.nalu.header_bytes + slice0.header.header_size ∧
    (buildSliceParam slice0 [] [] pic0).slice_data_bit_offset = 40 := by
  refine ⟨by decide, by decide, ?_⟩
  have h := C6_slice_data_bit_offset slice0 [] [] pic0 (by decide) (by decide)
  exact h.trans (by decide)

/-- Claim C8: when the PPS enables neither P/SP weighted prediction nor
explicit B-slice weighted biprediction, the weighted-prediction filler
leaves the slice parameter block untouched. -/
theorem C8_pred_weight_table_noop (header : SliceHdr) (sp : SliceParam)
    (h1 : ¬ (header.pps.weighted_pred_flag ∧ (isPSlice header ∨ isSPSlice header)))
    (h2 : ¬ (header.pps.weighted_bipred_idc = 1 ∧ isBSlice header)) :
    fillPredWeightTable header sp = sp := by
  have hz : numWeightTables header = 0 := by
    unfold numWeightTables
    rw [if_neg h1, if_neg h2]
  simp only [fillPredWeightTable, hz, if_pos]

/-- A zeroed slice-parameter fixture. -/
def sp0 : SliceParam where
  slice_data_size := 0
  slice_data_offset := 0
  slice_data_bit_offset := 0
  first_mb_in_slice := 0
  slice_type := 0
  direct_spatial_mv_pred_flag := false
  cabac_init_idc := 0
  slice_qp_delta := 0
  disable_deblocking_filter_idc := 0
  slice_alpha_c0_offset_div2 := 0
  slice_beta_offset_div2 := 0
  num_ref_idx_l0_active_minus1 := 0
  num_ref_idx_l1_active_minus1 := 0
  RefPicList0 := []
  RefPicList1 := []
  luma_log2_weight_denom := 0
  chroma_log2_weight_denom := 0
  luma_weight_l0_flag := 0
  luma_weight_l0 := fun _ => 0
  luma_offset_l0 := fun _ => 0
  chroma_weight_l0_flag := 0
  chroma_weight_l0 := fun _ _ => 0
  chroma_offset_l0 := fun _ _ => 0
  luma_weight_l1_flag := 0
  luma_weight_l1 := fun _ => 0
  luma_offset_l1 := fun _ => 0
  chroma_weight_l1_flag := 0
  chroma_weight_l1 := fun _ _ => 0
  chroma_offset_l1 := fun _ _ => 0

/-- Witness for C8 at a concrete I-slice whose PPS enables no weighted
prediction. -/
theorem C8_witness :
    (¬ (hdrISlice.pps.weighted_pred_flag ∧ (isPSlice hdrISlice ∨ isSPSlice hdrISlice))) ∧
    (¬ (hdrISlice.pps.weighted_bipred_idc = 1 ∧ isBSlice hdrISlice)) ∧
    fillPredWeightTable hdrISlice sp0 = sp0 :=
  ⟨by decide, by decide,
   C8_pred_weight_table_noop hdrISlice sp0 (by decide) (by decide)⟩

/-- Claim C9: for a second field whose paired first field carries an
attached decode picture, `new_field_picture` succeeds and attaches a
decode picture created on the first field's underlying output buffer. -/
theorem C9_second_field_reuses_buffer (surfaceOfBuffer : Nat → Nat)
    (firstField secondField : Picture) (firstPic : VaDecodePicture)
    (h : firstField.vaPic = some firstPic) :
    newFieldPicture surfaceOfBuffer firstField secondField =
      (true, { secondField with
        vaPic := some (vaDecodePictureNew surfaceOfBuffer firstPic.gstbuffer) }) ∧
    (vaDecodePictureNew surfaceOfBuffer firstPic.gstbuffer).gstbuffer =
      firstPic.gstbuffer := by
  unfold newFieldPicture
  rw [h]
  exact ⟨rfl, rfl⟩

/-- A first-field fixture carrying `vaPic0`. -/
def picFirstField : Picture :=
  { pic0 with
    field := PictureField.topField
    vaPic := some vaPic0 }

/-- Witness for C9 at a concrete field pair: the second field's new
decode picture sits on buffer 7, the first field's buffer. -/
theorem C9_witness :
    picFirstField.vaPic = some vaPic0 ∧
    (newFieldPicture (fun b => b + 100) picFirstField pic0).1 = true ∧
    ((newFieldPicture (fun b => b + 100) picFirstField pic0).2.vaPic.map
      VaDecodePicture.gstbuffer) = some vaPic0.gstbuffer := by
  have h := C9_second_field_reuses_buffer (fun b => b + 100) picFirstField pic0 vaPic0 rfl
  refine ⟨rfl, ?_, ?_⟩
  · rw [h.1]
  · rw [h.1]
    simp only [Option.map]
    rw [h.2]

/-- Claim C1 counterexample: on an allocation failure `new_picture`
does `goto error` and returns FALSE — it does not let decoding proceed;
the claim's assertion that the callback succeeds is false at this
input. -/
theorem C1_counterexample :
    (newPicture GST_FLOW_ERROR vaPic0 pic0).1 = false ∧
    ¬ ((newPicture GST_FLOW_ERROR vaPic0 pic0).1 = true) ∧
    (newPicture GST_FLOW_ERROR vaPic0 pic0).2.1 = GST_FLOW_ERROR := by
  decide

/-- Claim C1 (amended): an allocation failure at `new_picture` is
recorded in the decoder-wide `last_ret` and the callback fails
immediately (returns FALSE, attaching nothing); if `output_picture`
later runs with that recorded failure, the frame is dropped and the
recorded status is returned instead of the finish-frame result. -/
theorem C1_alloc_failure_recorded (allocRet : Int) (allocatedPic : VaDecodePicture)
    (picture : Picture) (copyFrames : Bool) (outPicture : Picture) (finishRet : Int)
    (h : allocRet ≠ GST_FLOW_OK) :
    newPicture allocRet allocatedPic picture = (false, allocRet, picture) ∧
    outputPicture allocRet copyFrames outPicture finishRet =
      { dropped := true, copied := false, appliedFlags := 0, flowRet := allocRet } := by
  unfold newPicture outputPicture
  rw [if_pos h, if_pos h]
  exact ⟨rfl, rfl⟩

/-- Witness for C1 at a concrete failed allocation (`GST_FLOW_ERROR`). -/
theorem C1_witness :
    GST_FLOW_ERROR ≠ GST_FLOW_OK ∧
    newPicture GST_FLOW_ERROR vaPic0 pic0 = (false, GST_FLOW_ERROR, pic0) ∧
    outputPicture GST_FLOW_ERROR true pic0 GST_FLOW_OK =
      { dropped := true, copied := false, appliedFlags := 0, flowRet := GST_FLOW_ERROR } := by
  have h := C1_alloc_failure_recorded GST_FLOW_ERROR vaPic0 pic0 true pic0 GST_FLOW_OK
    (by decide)
  exact ⟨by decide, h.1, h.2⟩

/-- Claim C5: the reference-list filler writes the 32-entry array so
that each in-range entry is the descriptor of the corresponding list
entry in list order (holes become the invalid filler) and every slot
past the list length is the invalid filler. -/
theorem C5_ref_pic_list_fill (reflist : List (Option Picture)) (currentPicture : Picture)
    (hlen : reflist.length ≤ 32) :
    (fillRefPicList reflist currentPicture).length = 32 ∧
    (∀ (i : Nat) (entry : Option Picture), reflist[i]? = some entry →
      (fillRefPicList reflist currentPicture)[i]? =
        some (match entry with
              | some picture => fillVaapiPic picture (pictureIsFrame currentPicture)
              | none => initVaapiPic)) ∧
    (∀ (i : Nat), reflist.length ≤ i → i < 32 →
      (fillRefPicList reflist currentPicture)[i]? = some initVaapiPic) := by
  refine ⟨?_, ?_, ?_⟩
  · simp only [fillRefPicList, List.length_append, List.length_map, List.length_replicate]
    omega
  · intro i entry hget
    have hlt : i < reflist.length := (List.getElem?_eq_some.mp hget).1
    unfold fillRefPicList
    have hc : i < (reflist.map (fun entry =>
        match entry with
        | some picture => fillVaapiPic picture (pictureIsFrame currentPicture)
        | none => initVaapiPic)).length := by
      simpa using hlt
    rw [List.getElem?_append, if_pos hc, List.getElem?_map, hget]
    rfl
  · intro i hge hlt
    unfold fillRefPicList
    rw [List.getElem?_append_right (by simpa using hge), List.getElem?_replicate,
      if_pos (by simp only [List.length_map]; omega)]

/-- A short-term reference frame fixture with an attached decode
picture and `frame_num = 3`. -/
def picShortTerm3 : Picture :=
  { pic0 with
    ref := Reference.shortTerm
    frame_num := 3
    vaPic := some vaPic0 }

/-- Witness for C5 on the two-entry list [reference, hole]. -/
theorem C5_witness :
    ([some picShortTerm3, none] : List (Option Picture)).length ≤ 32 ∧
    (fillRefPicList [some picShortTerm3, none] pic0).length = 32 ∧
    (fillRefPicList [some picShortTerm3, none] pic0)[0]? =
      some (fillVaapiPic picShortTerm3 (pictureIsFrame pic0)) ∧
    (fillRefPicList [some picShortTerm3, none] pic0)[1]? = some initVaapiPic ∧
    (fillRefPicList [some picShortTerm3, none] pic0)[2]? = some initVaapiPic := by
  have h := C5_ref_pic_list_fill [some picShortTerm3, none] pic0 (by decide)
  exact ⟨by decide, h.1, h.2.1 0 (some picShortTerm3) rfl, h.2.1 1 none rfl,
    h.2.2 2 (by decide) (by decide)⟩

/-- The capped fill loop takes exactly the first `16 - idx` pictures. -/
theorem fillRefFrameLoop_eq_take (pics : List Picture) (idx : Nat) :
    fillRefFrameLoop pics idx =
      (pics.take (16 - idx)).map (fun p => fillVaapiPic p true) := by
  induction pics generalizing idx with
  | nil => simp [fillRefFrameLoop]
  | cons p rest ih =>
    unfold fillRefFrameLoop
    by_cases h : idx < 16
    · rw [if_pos h, ih (idx + 1)]
      have h16 : 16 - idx = (16 - (idx + 1)) + 1 := by omega
      rw [h16]
      rfl
    · rw [if_neg h]
      have h0 : 16 - idx = 0 := by omega
      rw [h0]
      rfl

/-- The `ReferenceFrames` block equals the first 16 descriptors of
short-term-then-long-term references padded with fillers. -/
theorem referenceFrames_eq_take (shortRefs longRefs : List Picture) :
    referenceFrames shortRefs longRefs =
      ((shortRefs ++ longRefs).take 16).map (fun p => fillVaapiPic p true) ++
        List.replicate
          (16 - (((shortRefs ++ longRefs).take 16).map (fun p => fillVaapiPic p true)).length)
          initVaapiPic := by
  have key : fillRefFrameLoop shortRefs 0 ++
      fillRefFrameLoop longRefs (fillRefFrameLoop shortRefs 0).length =
      ((shortRefs ++ longRefs).take 16).map (fun p => fillVaapiPic p true) := by
    rw [fillRefFrameLoop_eq_take shortRefs 0, fillRefFrameLoop_eq_take longRefs]
    have harg : 16 - ((shortRefs.take (16 - 0)).map (fun p => fillVaapiPic p true)).length =
        16 - shortRefs.length := by
      simp only [List.length_map, List.length_take]
      omega
    rw [harg, List.take_append_eq_append_take, List.map_append]
  simp only [referenceFrames]
  rw [key]

/-- Claim C7: the 16-slot reference-frame array holds the descriptors
of the short-term DPB references (in DPB order) followed by the
long-term ones, capped at 16, every remaining slot being the invalid
filler. -/
theorem C7_reference_frames (shortRefs longRefs : List Picture) :
    (referenceFrames shortRefs longRefs).length = 16 ∧
    (∀ (i : Nat) (pic : Picture), i < 16 → (shortRefs ++ longRefs)[i]? = some pic →
      (referenceFrames shortRefs longRefs)[i]? = some (fillVaapiPic pic true)) ∧
    (∀ (i : Nat), (shortRefs ++ longRefs).length ≤ i → i < 16 →
      (referenceFrames shortRefs longRefs)[i]? = some initVaapiPic) := by
  have hrw := referenceFrames_eq_take shortRefs longRefs
  refine ⟨?_, ?_, ?_⟩
  · rw [hrw]
    simp only [List.length_append, List.length_map, List.length_take, List.length_replicate]
    omega
  · intro i pic hi16 hget
    have hlen : i < (shortRefs ++ longRefs).length := (List.getElem?_eq_some.mp hget).1
    rw [hrw]
    have hc : i < (((shortRefs ++ longRefs).take 16).map
        (fun p => fillVaapiPic p true)).length := by
      simp only [List.length_map, List.length_take]
      simp only [List.length_append] at hlen ⊢
      omega
    rw [List.getElem?_append, if_pos hc, List.getElem?_map, List.getElem?_take,
      if_pos hi16, hget]
    rfl
  · intro i hge hlt
    rw [hrw]
    rw [List.getElem?_append_right
        (by simp only [List.length_map, List.length_take]; omega),
      List.getElem?_replicate,
      if_pos (by simp only [List.length_map, List.length_take]; omega)]

/-- Witness for C7: one short-term then one long-term reference land in
slots 0 and 1, slot 2 is the filler. -/
theorem C7_witness :
    ([picShortTerm3] ++ [picLongTerm5])[0]? = some picShortTerm3 ∧
    ([picShortTerm3] ++ [picLongTerm5])[1]? = some picLongTerm5 ∧
    (referenceFrames [picShortTerm3] [picLongTerm5]).length = 16 ∧
    (referenceFrames [picShortTerm3] [picLongTerm5])[0]? =
      some (fillVaapiPic picShortTerm3 true) ∧
    (referenceFrames [picShortTerm3] [picLongTerm5])[1]? =
      some (fillVaapiPic picLongTerm5 true) ∧
    (referenceFrames [picShortTerm3] [picLongTerm5])[2]? = some initVaapiPic := by
  have h := C7_reference_frames [picShortTerm3] [picLongTerm5]
  exact ⟨rfl, rfl, h.1, h.2.1 0 picShortTerm3 (by decide) rfl,
    h.2.1 1 picLongTerm5 (by decide) rfl, h.2.2 2 (by decide) (by decide)⟩

/-- The candidate array built by `_get_profile` coincides with the
amended spec wording (Baseline fallback on `constraint_set0/1/2`). -/
theorem profileCandidates_eq_spec (sps : SPS) (maxDpbSize : Int) :
    profileCandidates sps maxDpbSize = specProfileCandidates sps maxDpbSize := by
  obtain ⟨idc, cs0, cs1, cs2, cs3, cfi, cat, bdl, fmo, fcf, crx, cry, crw, crh, w, ht, mvc⟩ := sps
  simp only [profileCandidates, specProfileCandidates, specDirectMapping, profileMap,
    GST_H264_PROFILE_BASELINE, GST_H264_PROFILE_MAIN, GST_H264_PROFILE_EXTENDED,
    GST_H264_PROFILE_HIGH, GST_H264_PROFILE_MULTIVIEW_HIGH, GST_H264_PROFILE_STEREO_HIGH]
  by_cases h66 : idc = 66
  · subst h66; simp
  · by_cases h77 : idc = 77
    · subst h77; simp
    · by_cases h88 : idc = 88
      · subst h88; simp
      · by_cases h100 : idc = 100
        · subst h100; simp
        · by_cases h118 : idc = 118
          · subst h118; simp
          · by_cases h128 : idc = 128
            · subst h128; simp
            · simp [h66, h77, h88, h100, h118, h128, Ne.symm h77, Ne.symm h100,
                Ne.symm h118, Ne.symm h128]

/-- `VAProfileNone` never appears among the candidates `_get_profile`
builds. -/
theorem profileNone_not_mem_candidates (sps : SPS) (maxDpbSize : Int) :
    VAProfile.profileNone ∉ profileCandidates sps maxDpbSize := by
  intro hmem
  rw [profileCandidates_eq_spec] at hmem
  simp only [specProfileCandidates, specDirectMapping, List.mem_append] at hmem
  rcases hmem with ((((h | h) | h) | h) | h) <;> split_ifs at h <;> simp_all

/-- Claim C2 (amended: the Baseline fallback requires one of
constraint_set0/1/2, not an arbitrary constraint-set flag): profile
selection builds the ordered candidate list — direct mapping first,
then the Baseline, Extended and Multiview-High fallbacks — and returns
the first accelerator-supported candidate, failing exactly when no
candidate is supported; Baseline with constraint_set1 and only
Constrained-Baseline supported yields Constrained-Baseline. -/
theorem C2_profile_selection (hasProfile : VAProfile → Bool) (sps : SPS)
    (maxDpbSize : Int) :
    profileCandidates sps maxDpbSize = specProfileCandidates sps maxDpbSize ∧
    getProfile hasProfile sps maxDpbSize =
      (match (specProfileCandidates sps maxDpbSize).find? hasProfile with
       | some profile => profile
       | none => VAProfile.profileNone) ∧
    (getProfile hasProfile sps maxDpbSize = VAProfile.profileNone ↔
      ∀ profile ∈ specProfileCandidates sps maxDpbSize, hasProfile profile = false) ∧
    getProfile hasOnlyConstrainedBaseline spsBaselineCs1 16 =
      VAProfile.h264ConstrainedBaseline := by
  have heq := profileCandidates_eq_spec sps maxDpbSize
  refine ⟨heq, ?_, ?_, by decide⟩
  · unfold getProfile
    rw [heq]
  · unfold getProfile
    rw [heq]
    rcases hfind : (specProfileCandidates sps maxDpbSize).find? hasProfile with _ | profile
    · simp only [hfind]
      constructor
      · intro _ profile hp
        have hnone := List.find?_eq_none.mp hfind profile hp
        simpa using hnone
      · intro _
        trivial
    · simp only [hfind]
      constructor
      · intro hp0
        exfalso
        have hmem := List.mem_of_find?_eq_some hfind
        rw [← heq, hp0] at hmem
        exact profileNone_not_mem_candidates sps maxDpbSize hmem
      · intro hall
        exfalso
        have hp := List.find?_some hfind
        rw [hall profile (List.mem_of_find?_eq_some hfind)] at hp
        exact Bool.false_ne_true hp

/-- Claim C2 counterexample: for a Baseline SPS whose only set
constraint-set flag is `constraint_set3_flag`, the code builds no
fallback (it tests only flags 0/1/2) and fails even though
Constrained-Baseline is supported, while the claim's candidate list
("any constraint-set flag") would select Constrained-Baseline. -/
theorem C2_counterexample :
    spsBaselineCs3.profile_idc = GST_H264_PROFILE_BASELINE ∧
    spsBaselineCs3.constraint_set3_flag = true ∧
    getProfile hasOnlyConstrainedBaseline spsBaselineCs3 16 = VAProfile.profileNone ∧
    specGetProfileClaim hasOnlyConstrainedBaseline spsBaselineCs3 16 =
      VAProfile.h264ConstrainedBaseline := by
  decide

/-- Claim C3 counterexample: monochrome (`chroma_format_idc = 0`, 8-bit
luma) does not report unsupported — `_get_rtformat` falls into the
4:2:0 branch and `new_sequence` can succeed on such an SPS. -/
theorem C3_counterexample :
    spsMono.chroma_format_idc = 0 ∧
    getRtformat 8 0 = VA_RT_FORMAT_YUV420 ∧
    VA_RT_FORMAT_YUV420 ≠ 0 ∧
    (newSequence (fun _ => true) (fun _ _ _ _ => true) true st0 spsMono 2).isSome = true := by
  decide

/-- Claim C3 (amended): the six (depth 8/10 x chroma 4:2:0/4:2:2/4:4:4)
combinations map to their six rate formats, but any other chroma idc
(monochrome included) also maps to the 4:2:0 format of its depth; only
a luma depth other than 8 or 10 reports unsupported (0), and whenever
the mapping reports unsupported `new_sequence` fails. -/
theorem C3_rtformat_mapping :
    (∀ (bitDepthLuma chromaFormatIdc : Nat), bitDepthLuma ≠ 8 → bitDepthLuma ≠ 10 →
      getRtformat bitDepthLuma chromaFormatIdc = 0) ∧
    getRtformat 8 1 = VA_RT_FORMAT_YUV420 ∧
    getRtformat 8 2 = VA_RT_FORMAT_YUV422 ∧
    getRtformat 8 3 = VA_RT_FORMAT_YUV444 ∧
    getRtformat 10 1 = VA_RT_FORMAT_YUV420_10 ∧
    getRtformat 10 2 = VA_RT_FORMAT_YUV422_10 ∧
    getRtformat 10 3 = VA_RT_FORMAT_YUV444_10 ∧
    (∀ (chromaFormatIdc : Nat), chromaFormatIdc ≠ 2 → chromaFormatIdc ≠ 3 →
      getRtformat 8 chromaFormatIdc = VA_RT_FORMAT_YUV420 ∧
      getRtformat 10 chromaFormatIdc = VA_RT_FORMAT_YUV420_10) ∧
    (∀ (hasProfile : VAProfile → Bool)
       (configIsEqual : VAProfile → Nat → Int → Int → Bool) (negotiateOk : Bool)
       (st : DecState) (sps : SPS) (maxDpbSize : Int),
      getRtformat (sps.bit_depth_luma_minus8 + 8) sps.chroma_format_idc = 0 →
      newSequence hasProfile configIsEqual negotiateOk st sps maxDpbSize = none) := by
  refine ⟨?_, rfl, rfl, rfl, rfl, rfl, rfl, ?_, ?_⟩
  · intro bitDepthLuma chromaFormatIdc h8 h10
    unfold getRtformat
    rw [if_neg h10, if_neg h8]
  · intro chromaFormatIdc h2 h3
    constructor <;> simp [getRtformat, h2, h3]
  · intro hasProfile configIsEqual negotiateOk st sps maxDpbSize h
    simp [newSequence, h]

/-- Witness for C3: luma depth 9 is unsupported and `new_sequence`
fails on a 9-bit SPS regardless of the accelerator. -/
theorem C3_witness :
    (9 : Nat) ≠ 8 ∧ (9 : Nat) ≠ 10 ∧
    getRtformat 9 1 = 0 ∧
    getRtformat (({ spsBase with bit_depth_luma_minus8 := 1 } : SPS).bit_depth_luma_minus8 + 8)
      ({ spsBase with bit_depth_luma_minus8 := 1 } : SPS).chroma_format_idc = 0 ∧
    newSequence (fun _ => true) (fun _ _ _ _ => true) true st0
      { spsBase with bit_depth_luma_minus8 := 1 } 2 = none := by
  refine ⟨by decide, by decide, C3_rtformat_mapping.1 9 1 (by decide) (by decide),
    by decide, ?_⟩
  exact C3_rtformat_mapping.2.2.2.2.2.2.2.2 (fun _ => true) (fun _ _ _ _ => true) true st0
    { spsBase with bit_depth_luma_minus8 := 1 } 2 (by decide)

/-- Witness for C2 at the claim's example input: Baseline with
constraint_set1 and support set {Constrained-Baseline} selects
Constrained-Baseline, and the candidate lists coincide there. -/
theorem C2_witness :
    getProfile hasOnlyConstrainedBaseline spsBaselineCs1 16 =
      VAProfile.h264ConstrainedBaseline ∧
    profileCandidates spsBaselineCs1 16 = specProfileCandidates spsBaselineCs1 16 :=
  ⟨(C2_profile_selection hasOnlyConstrainedBaseline spsBaselineCs1 16).2.2.2,
   (C2_profile_selection hasOnlyConstrainedBaseline spsBaselineCs1 16).1⟩
